import Mathlib

/-!
Verification of the Real-Time Session & Room Messaging Coordinator
(`src/utils/websocket.js`, store layer `src/utils/cache.js`) of the
node-advanced-setup repository.

The JavaScript `Map` objects (`connectedUsers`, `userSockets`, `rooms`,
`activeRooms`, `messageHistory`) are embedded as association lists with
JavaScript `Map` semantics: `set` replaces the value of an existing key in
place, otherwise appends; `delete` removes the key; `get` is a lookup.
JavaScript `Set` objects (room member sets) are embedded as duplicate-free
lists (`add` appends when absent, `delete` erases).

The Redis-backed store (`CacheManager`) is embedded as an availability flag
plus an association list from keys to values together with the TTL that was
written with them; when the store is unavailable, `get` returns `none` and
`set` is a logged no-op returning `false`, exactly as in `cache.js`.
-/

namespace NodeWS

section JsMap

variable {α : Type} {β : Type} [DecidableEq α]

/-- Embeds `Map.get`: lookup of a key in an association list. -/
def mapGet : List (α × β) → α → Option β
  | [], _ => none
  | (k', v) :: rest, k => if k' = k then some v else mapGet rest k

/-- Embeds `Map.set`: replace the binding of an existing key in place, otherwise
append a fresh binding at the end (JavaScript insertion order). -/
def mapSet : List (α × β) → α → β → List (α × β)
  | [], k, v => [(k, v)]
  | (k', v') :: rest, k, v =>
      if k' = k then (k, v) :: rest else (k', v') :: mapSet rest k v

/-- Embeds `Map.delete`: remove the binding of a key. -/
def mapDelete : List (α × β) → α → List (α × β)
  | [], _ => []
  | (k', v') :: rest, k =>
      if k' = k then mapDelete rest k else (k', v') :: mapDelete rest k

/-- The keys of an association list, in order. -/
def mapKeys (m : List (α × β)) : List α := m.map Prod.fst

theorem mapGet_mapSet_self (m : List (α × β)) (k : α) (v : β) :
    mapGet (mapSet m k v) k = some v := by
  induction m with
  | nil => simp [mapSet, mapGet]
  | cons kv rest ih =>
      obtain ⟨k', v'⟩ := kv
      by_cases h : k' = k
      · simp [mapSet, mapGet, h]
      · simp [mapSet, mapGet, h, ih]

theorem mapGet_mapSet_ne (m : List (α × β)) (k k' : α) (v : β) (h : k' ≠ k) :
    mapGet (mapSet m k' v) k = mapGet m k := by
  induction m with
  | nil => simp [mapSet, mapGet, h]
  | cons kv rest ih =>
      obtain ⟨k₀, v₀⟩ := kv
      by_cases h0 : k₀ = k'
      · subst h0
        simp [mapSet, mapGet, h]
      · by_cases h1 : k₀ = k
        · subst h1
          simp [mapSet, mapGet, h0]
        · simp [mapSet, mapGet, h0, h1, ih]

theorem mapGet_mapDelete_self (m : List (α × β)) (k : α) :
    mapGet (mapDelete m k) k = none := by
  induction m with
  | nil => simp [mapDelete, mapGet]
  | cons kv rest ih =>
      obtain ⟨k', v'⟩ := kv
      by_cases h : k' = k
      · simp [mapDelete, h, ih]
      · simp [mapDelete, mapGet, h, ih]

theorem mapKeys_mapSet (m : List (α × β)) (k : α) (v : β) :
    mapKeys (mapSet m k v) =
      if k ∈ mapKeys m then mapKeys m else mapKeys m ++ [k] := by
  induction m with
  | nil => simp [mapSet, mapKeys]
  | cons kv rest ih =>
      obtain ⟨k', v'⟩ := kv
      by_cases h : k' = k
      · subst h
        simp [mapSet, mapKeys]
      · have hne : ¬ k = k' := fun hh => h hh.symm
        simp only [mapSet, h, if_false, mapKeys, List.map_cons] at ih ⊢
        rw [ih]
        by_cases hmem : k ∈ List.map Prod.fst rest
        · simp [List.mem_cons, hne, hmem]
        · simp [List.mem_cons, hne, hmem]

/-- Embeds `Map.set` never creates a duplicate key: key-uniqueness is preserved. -/
theorem nodup_mapKeys_mapSet (m : List (α × β)) (k : α) (v : β)
    (h : (mapKeys m).Nodup) : (mapKeys (mapSet m k v)).Nodup := by
  rw [mapKeys_mapSet]
  by_cases hmem : k ∈ mapKeys m
  · simpa [hmem] using h
  · simp only [hmem, if_false]
    rw [List.nodup_append]
    exact ⟨h, List.nodup_singleton k, by simpa using hmem⟩

end JsMap

/-! ## Data model (`src/utils/websocket.js`) -/

/-- The external localized string renderer (`i18nManager.translate`, declared
out of scope by the subsystem: "outgoing event text is produced by an external
translation function keyed by locale").  It is embedded as the identity on the
translation key, so emitted error/status payloads carry their reason key. -/
def translate (key : String) (_locale : String) : String := key

/-- The ECMAScript whitespace test used by `String.prototype.trim`, restricted
to the code points that occur in the wire protocol (ASCII whitespace, vertical
tab, form feed and NBSP). -/
def isJsWhitespace (c : Char) : Bool :=
  c == ' ' || c == '\t' || c == '\n' || c == '\r' ||
  c.val == 11 || c.val == 12 || c.val == 160

/-- JavaScript `String.prototype.trim`: strip leading and trailing
whitespace. -/
def jsTrim (s : String) : String :=
  ⟨((s.data.dropWhile isJsWhitespace).reverse.dropWhile isJsWhitespace).reverse⟩

/-- Embeds `generateMessageId` (websocket.js:629-631):
`msg_${Date.now()}_${Math.random().toString(36).substr(2, 9)}`.
The two impure sources — the current epoch milliseconds and the random base-36
suffix — are explicit arguments. -/
def generateMessageId (nowMs : Nat) (randSuffix : String) : String :=
  "msg_" ++ toString nowMs ++ "_" ++ randSuffix

/-- A room message object as built by `handleSendMessage` (websocket.js:410-420).
`metadata` and `reactions` are carried as association lists of strings. -/
structure RoomMessage where
  id : String
  userId : String
  roomId : String
  message : String
  messageType : String
  metadata : List (String × String)
  timestamp : String
  edited : Bool
  reactions : List (String × String)
deriving DecidableEq, Repr

/-- A private message object as built by `handlePrivateMessage`
(websocket.js:473-481); the source field `private: true` is `isPrivate`. -/
structure PrivateMessage where
  id : String
  fromUserId : String
  toUserId : String
  message : String
  messageType : String
  timestamp : String
  isPrivate : Bool
deriving DecidableEq, Repr

/-- An offline notification record as stored by `storeOfflineNotification`
(websocket.js:758-761): the notification payload spread plus a timestamp. -/
structure NotificationRec where
  payload : String
  timestamp : String
deriving DecidableEq, Repr

/-- A room-metadata activity entry (`updateRoomMetadata`, websocket.js:650-654). -/
structure Activity where
  userId : String
  action : String
  timestamp : String
deriving DecidableEq, Repr

/-- The values stored in the external key-value store.  The JavaScript store is
dynamically typed; the key namespaces (`room:{id}:messages`,
`private_messages:{id}`, `offline_notifications:{id}`, `user:{id}:online`,
`room:{id}:metadata`) never mix value shapes, so a tagged union is faithful. -/
inductive CVal where
  | roomMsgs (msgs : List RoomMessage)
  | privMsgs (msgs : List PrivateMessage)
  | notifs (notifs : List NotificationRec)
  | flag (b : Bool)
  | meta (members : List String) (activity : List Activity)
deriving DecidableEq, Repr

/-- The Redis-backed store (`CacheManager` in `src/utils/cache.js`).
`available` is `isReady()`; `entries` maps each key to the value and the TTL
(in seconds) most recently written for it. -/
structure CacheState where
  available : Bool
  entries : List (String × CVal × Nat)
deriving DecidableEq, Repr

/-- Embeds `CacheManager.get` (cache.js:84-112): `null` when the store is not ready
or the key is absent, the stored value otherwise (errors are logged and
swallowed, returning `null`). -/
def cacheGetEntry (c : CacheState) (k : String) : Option (CVal × Nat) :=
  if c.available then mapGet c.entries k else none

/-- The value part of `CacheManager.get`. -/
def cacheGet (c : CacheState) (k : String) : Option CVal :=
  (cacheGetEntry c k).map Prod.fst

/-- Embeds `CacheManager.set` (cache.js:117-142): when the store is not ready the
write is skipped (logged) and `false` is returned; otherwise the key is set
with the given TTL and `true` is returned.  Errors are logged and swallowed,
returning `false`. -/
def cacheSet (c : CacheState) (k : String) (v : CVal) (ttl : Nat) :
    CacheState × Bool :=
  if c.available then ({ c with entries := mapSet c.entries k (v, ttl) }, true)
  else (c, false)

/-- A live transport connection as seen by the manager: the transport socket
id, the authenticated principal (`socket.userId`, `socket.userRole`) and the
rooms the socket has joined (`socket.rooms`, minus the socket's own id room,
which the source always filters out). -/
structure Socket where
  sid : Nat
  userId : String
  userRole : String
  userLanguage : String
  joinedRooms : List String
deriving DecidableEq, Repr

/-- Where an outbound event is sent: `socket.emit` targets one socket,
`socket.to(room).emit` targets a room excluding the sender,
`io.to(room).emit` targets the whole room, `io.emit` targets everyone. -/
inductive Target where
  | sock (sid : Nat)
  | roomExcept (room : String) (sid : Nat)
  | room (room : String)
  | all
deriving DecidableEq, Repr

/-- One outbound event: target, event name, scalar payload (message body,
error reason key or message id) and, for `message_history`, the replayed
message list. -/
structure Emission where
  target : Target
  event : String
  body : String := ""
  msgs : List RoomMessage := []
deriving DecidableEq, Repr

/-- Connection statistics (`this.connectionStats`, websocket.js:21-26). -/
structure ConnStats where
  totalConnections : Nat
  activeUsers : Nat
  totalRooms : Nat
  messagesCount : Nat
deriving DecidableEq, Repr

/-- The in-memory state of `WebSocketManager` (websocket.js:13-27) plus the
external store. -/
structure WSState where
  connectedUsers : List (String × Nat)
  userSockets : List (Nat × String)
  rooms : List (String × List String)
  activeRooms : List String
  messageHistory : List (String × List RoomMessage)
  connectionStats : ConnStats
  cache : CacheState
deriving DecidableEq, Repr

/-- A freshly constructed manager over a store that is available iff `avail`. -/
def initState (avail : Bool) : WSState :=
  { connectedUsers := [], userSockets := [], rooms := [], activeRooms := []
    messageHistory := [], connectionStats := ⟨0, 0, 0, 0⟩
    cache := { available := avail, entries := [] } }

/-! ## Operations (`src/utils/websocket.js`) -/

/-- JavaScript `Set.add`: append when absent. -/
def setAdd (s : List String) (x : String) : List String :=
  if x ∈ s then s else s ++ [x]

/-- Embeds `Array.prototype.slice(-n)`: the last `n` elements. -/
def sliceLast {α : Type} (l : List α) (n : Nat) : List α :=
  l.drop (l.length - n)

/-- Embeds `updateUserOnlineStatus` (websocket.js:689-698): write the presence flag
under `user:{userId}:online` with a 300 s TTL and broadcast
`user_status_changed` to the user's personal room. -/
def updateUserOnlineStatus (c : CacheState) (userId : String) (isOnline : Bool) :
    CacheState × Emission :=
  let c := (cacheSet c ("user:" ++ userId ++ ":online") (.flag isOnline) 300).1
  (c, { target := .room ("user:" ++ userId), event := "user_status_changed"
        body := userId })

/-- Embeds `handleConnection` (websocket.js:118-162): bump the connection statistics,
install the `userId -> socket` and `socketId -> userId` registry mappings with
a plain `Map.set` (overwriting any previous binding for the same user without
touching the superseded socket), join the personal and role rooms, emit the
localized welcome, send the (stub, always empty) active-room list
(`sendUserActiveRooms`, websocket.js:700-710), register the event handlers,
and mark the user online.  No offline or private-message queue is read. -/
def handleConnection (st : WSState) (socket : Socket) :
    WSState × Socket × List Emission :=
  let stats := { st.connectionStats with
    totalConnections := st.connectionStats.totalConnections + 1
    activeUsers := st.connectedUsers.length + 1 }
  let st := { st with
    connectionStats := stats
    connectedUsers := mapSet st.connectedUsers socket.userId socket.sid
    userSockets := mapSet st.userSockets socket.sid socket.userId }
  let socket := { socket with
    joinedRooms :=
      setAdd (setAdd socket.joinedRooms ("user:" ++ socket.userId))
        ("role:" ++ socket.userRole) }
  let emits : List Emission := [
    { target := .sock socket.sid, event := "connected"
      body := translate "websocket.connected" socket.userLanguage },
    { target := .sock socket.sid, event := "active_rooms" }]
  let (c, statusEmit) := updateUserOnlineStatus st.cache socket.userId true
  ({ st with cache := c }, socket, emits ++ [statusEmit])

/-- Applying a sequence of `connectionOpened` events to the manager state. -/
def connectSeq (st : WSState) (socks : List Socket) : WSState :=
  socks.foldl (fun s sk => (handleConnection s sk).1) st

/-- Embeds `updateRoomMetadata` (websocket.js:639-662): read-modify-write of the
`room:{roomId}:metadata` record, keeping the last 100 activity entries, with a
24 h TTL. -/
def updateRoomMetadata (c : CacheState) (roomId userId action nowIso : String) :
    CacheState :=
  let key := "room:" ++ roomId ++ ":metadata"
  let ma :=
    match cacheGet c key with
    | some (.meta m a) => (m, a)
    | _ => ([], [])
  let members :=
    if action == "joined" && !(ma.1.contains userId) then ma.1 ++ [userId]
    else if action == "left" then ma.1.filter (fun i => i != userId)
    else ma.1
  let activity := ma.2 ++ [⟨userId, action, nowIso⟩]
  let activity := if activity.length > 100 then sliceLast activity 100 else activity
  (cacheSet c key (.meta members activity) 86400).1

/-- Embeds `sendMessageHistory` (websocket.js:678-687): read `room:{roomId}:messages`
(empty when the store is unavailable or the key is absent) and emit the last
20 messages to the requesting socket. -/
def sendMessageHistory (c : CacheState) (socket : Socket) (roomId : String) :
    Emission :=
  let messages :=
    match cacheGet c ("room:" ++ roomId ++ ":messages") with
    | some (.roomMsgs l) => l
    | _ => []
  { target := .sock socket.sid, event := "message_history"
    body := roomId, msgs := sliceLast messages 20 }

/-- Embeds `handleJoinRoom` (websocket.js:276-333).  `validateRoomAccess`
(websocket.js:633-637) is a stub that always allows, so the denial branch is
dead; the socket joins the room, the member set is created if absent and the
user added, metadata is updated, and confirmation / membership broadcast /
history replay are emitted. -/
def handleJoinRoom (st : WSState) (socket : Socket) (roomId nowIso : String) :
    WSState × Socket × List Emission :=
  let socket := { socket with joinedRooms := setAdd socket.joinedRooms roomId }
  let members := setAdd ((mapGet st.rooms roomId).getD []) socket.userId
  let st := { st with rooms := mapSet st.rooms roomId members }
  let st := { st with
    cache := updateRoomMetadata st.cache roomId socket.userId "joined" nowIso }
  let emits : List Emission := [
    { target := .sock socket.sid, event := "joined_room", body := roomId },
    { target := .roomExcept roomId socket.sid, event := "user_joined_room"
      body := socket.userId },
    sendMessageHistory st.cache socket roomId]
  (st, socket, emits)

/-- Embeds `handleLeaveRoom` (websocket.js:338-383): the socket leaves the room, the
user is removed from the member set, and — when the member set becomes empty —
the room is deleted from `rooms` and `activeRooms` synchronously, inside the
handler itself. -/
def handleLeaveRoom (st : WSState) (socket : Socket) (roomId nowIso : String) :
    WSState × Socket × List Emission :=
  let socket := { socket with joinedRooms := socket.joinedRooms.erase roomId }
  let st :=
    match mapGet st.rooms roomId with
    | none => st
    | some members =>
      let members := members.erase socket.userId
      if members.isEmpty then
        { st with rooms := mapDelete st.rooms roomId
                  activeRooms := st.activeRooms.erase roomId }
      else
        { st with rooms := mapSet st.rooms roomId members }
  let st := { st with
    cache := updateRoomMetadata st.cache roomId socket.userId "left" nowIso }
  let emits : List Emission := [
    { target := .sock socket.sid, event := "left_room", body := roomId },
    { target := .roomExcept roomId socket.sid, event := "user_left_room"
      body := socket.userId }]
  (st, socket, emits)

/-- Embeds `storeMessage` (websocket.js:664-676): append to `room:{roomId}:messages`,
`shift()` one element when the length exceeds 50, write back with a 1 h TTL.
When the store is unavailable the read yields `[]` and the write is dropped. -/
def storeMessage (c : CacheState) (m : RoomMessage) : CacheState :=
  let key := "room:" ++ m.roomId ++ ":messages"
  let messages :=
    match cacheGet c key with
    | some (.roomMsgs l) => l
    | _ => []
  let messages := messages ++ [m]
  let messages := if messages.length > 50 then messages.drop 1 else messages
  (cacheSet c key (.roomMsgs messages) 3600).1

/-- The outcome of a message-handler call: resulting state, outbound events in
emission order, and the message ids allocated by `generateMessageId` during
the call. -/
structure SendOutcome where
  state : WSState
  emissions : List Emission
  allocatedIds : List String
deriving Repr

/-- Embeds `handleSendMessage` (websocket.js:388-449): reject an empty or
whitespace-only body with the `websocket.empty_message` error, then reject a
sender whose socket is not in the target room with `websocket.not_in_room`;
both rejections emit `message_error` to the originating socket only and
return.  On acceptance: allocate the id, build the message object, store it in
history, bump the message counter, broadcast `new_message` to the room and
confirm `message_sent` to the sender. -/
def handleSendMessage (st : WSState) (socket : Socket)
    (roomId message messageType : String) (metadata : List (String × String))
    (nowMs : Nat) (randSuffix : String) (nowIso : String) : SendOutcome :=
  if (jsTrim message).isEmpty then
    { state := st
      emissions := [{ target := .sock socket.sid, event := "message_error"
                      body := translate "websocket.empty_message" socket.userLanguage }]
      allocatedIds := [] }
  else if !(socket.joinedRooms.contains roomId) then
    { state := st
      emissions := [{ target := .sock socket.sid, event := "message_error"
                      body := translate "websocket.not_in_room" socket.userLanguage }]
      allocatedIds := [] }
  else
    let mid := generateMessageId nowMs randSuffix
    let msgObj : RoomMessage :=
      { id := mid, userId := socket.userId, roomId, message := jsTrim message
        messageType, metadata, timestamp := nowIso, edited := false
        reactions := [] }
    let st := { st with cache := storeMessage st.cache msgObj }
    let st := { st with connectionStats := { st.connectionStats with
      messagesCount := st.connectionStats.messagesCount + 1 } }
    { state := st
      emissions := [
        { target := .room roomId, event := "new_message", body := msgObj.message },
        { target := .sock socket.sid, event := "message_sent", body := mid }]
      allocatedIds := [mid] }

/-- Embeds `storePrivateMessage` (websocket.js:741-753): append to
`private_messages:{toUserId}`, `shift()` one element when the length exceeds
100, write back with a 7-day TTL. -/
def storePrivateMessage (c : CacheState) (m : PrivateMessage) : CacheState :=
  let key := "private_messages:" ++ m.toUserId
  let messages :=
    match cacheGet c key with
    | some (.privMsgs l) => l
    | _ => []
  let messages := messages ++ [m]
  let messages := if messages.length > 100 then messages.drop 1 else messages
  (cacheSet c key (.privMsgs messages) (86400 * 7)).1

/-- Embeds `handlePrivateMessage` (websocket.js:454-504): when the target user has no
entry in `connectedUsers`, emit `private_message_error` (reason
`websocket.user_offline`) to the sender and return — nothing is stored.
When the target is online: allocate the id, deliver `private_message` to the
target socket, confirm `private_message_sent` to the sender, and store the
message under `private_messages:{targetUserId}`. -/
def handlePrivateMessage (st : WSState) (socket : Socket)
    (targetUserId message messageType : String)
    (nowMs : Nat) (randSuffix : String) (nowIso : String) : SendOutcome :=
  match mapGet st.connectedUsers targetUserId with
  | none =>
    { state := st
      emissions := [{ target := .sock socket.sid, event := "private_message_error"
                      body := translate "websocket.user_offline" socket.userLanguage }]
      allocatedIds := [] }
  | some targetSid =>
    let mid := generateMessageId nowMs randSuffix
    let msgObj : PrivateMessage :=
      { id := mid, fromUserId := socket.userId, toUserId := targetUserId
        message := jsTrim message, messageType, timestamp := nowIso
        isPrivate := true }
    let st := { st with cache := storePrivateMessage st.cache msgObj }
    { state := st
      emissions := [
        { target := .sock targetSid, event := "private_message"
          body := msgObj.message },
        { target := .sock socket.sid, event := "private_message_sent"
          body := mid }]
      allocatedIds := [mid] }

/-- Embeds `storeOfflineNotification` (websocket.js:755-769): append to
`offline_notifications:{userId}`, keep the last 50, 3-day TTL. -/
def storeOfflineNotification (c : CacheState) (userId payload nowIso : String) :
    CacheState :=
  let key := "offline_notifications:" ++ userId
  let nl :=
    match cacheGet c key with
    | some (.notifs l) => l
    | _ => []
  let nl := nl ++ [⟨payload, nowIso⟩]
  let nl := if nl.length > 50 then nl.drop 1 else nl
  (cacheSet c key (.notifs nl) (86400 * 3)).1

/-- Embeds `sendNotificationToUser` (websocket.js:573-592): deliver immediately when
the user is online, otherwise store the notification for later delivery and
return `false`. -/
def sendNotificationToUser (st : WSState) (userId payload nowIso : String) :
    WSState × List Emission × Bool :=
  match mapGet st.connectedUsers userId with
  | some sid =>
      (st, [{ target := .sock sid, event := "notification", body := payload }], true)
  | none =>
      ({ st with cache := storeOfflineNotification st.cache userId payload nowIso },
       [], false)

/-- Embeds `cleanupEmptyRooms` (websocket.js:712-720): delete every room whose member
set is empty from `rooms`, `activeRooms` and `messageHistory`. -/
def cleanupEmptyRooms (st : WSState) : WSState :=
  let emptyIds := (st.rooms.filter (fun rm => rm.2.isEmpty)).map Prod.fst
  { st with
    rooms := st.rooms.filter (fun rm => !rm.2.isEmpty)
    activeRooms := st.activeRooms.filter (fun r => !(emptyIds.contains r))
    messageHistory := st.messageHistory.filter (fun h => !(emptyIds.contains h.1)) }

/-- Embeds `handleDisconnection` (websocket.js:536-568): delete the registry mappings
keyed by the disconnecting socket's `userId` and `socketId` (regardless of
whether that user id currently maps to this socket or to a newer one), update
the statistics, mark the user offline, emit `user_offline` to every room the
socket was in (except its own id room), and run `cleanupEmptyRooms`.  The
disconnecting user is not removed from any room member set. -/
def handleDisconnection (st : WSState) (socket : Socket) :
    WSState × List Emission :=
  let st := { st with
    connectedUsers := mapDelete st.connectedUsers socket.userId
    userSockets := mapDelete st.userSockets socket.sid }
  let st := { st with connectionStats := { st.connectionStats with
    activeUsers := st.connectedUsers.length } }
  let (c, statusEmit) := updateUserOnlineStatus st.cache socket.userId false
  let st := { st with cache := c }
  let offlineEmits := socket.joinedRooms.map fun roomId =>
    { target := Target.roomExcept roomId socket.sid, event := "user_offline"
      body := socket.userId }
  let st := cleanupEmptyRooms st
  (st, statusEmit :: offlineEmits)

/-! ## Supporting lemmas -/

theorem cacheGetEntry_cacheSet_self (c : CacheState) (k : String) (v : CVal)
    (ttl : Nat) (hav : c.available = true) :
    cacheGetEntry (cacheSet c k v ttl).1 k = some (v, ttl) := by
  simp [cacheGetEntry, cacheSet, hav, mapGet_mapSet_self]

theorem cacheGet_cacheSet_self (c : CacheState) (k : String) (v : CVal)
    (ttl : Nat) (hav : c.available = true) :
    cacheGet (cacheSet c k v ttl).1 k = some v := by
  simp [cacheGet, cacheGetEntry_cacheSet_self c k v ttl hav]

theorem cacheGet_cacheSet_ne (c : CacheState) (k k' : String) (v : CVal)
    (ttl : Nat) (h : k ≠ k') :
    cacheGet (cacheSet c k' v ttl).1 k = cacheGet c k := by
  by_cases hav : c.available
  · simp [cacheGet, cacheGetEntry, cacheSet, hav,
      mapGet_mapSet_ne _ _ _ _ (Ne.symm h)]
  · simp [cacheGet, cacheGetEntry, cacheSet, hav]

theorem cacheSet_unavailable (c : CacheState) (k : String) (v : CVal)
    (ttl : Nat) (hun : c.available = false) : (cacheSet c k v ttl).1 = c := by
  simp [cacheSet, hun]

theorem cacheGet_unavailable (c : CacheState) (k : String)
    (hun : c.available = false) : cacheGet c k = none := by
  simp [cacheGet, cacheGetEntry, hun]

theorem storeMessage_unavailable (c : CacheState) (m : RoomMessage)
    (hun : c.available = false) : storeMessage c m = c := by
  unfold storeMessage
  dsimp only
  rw [cacheGet_unavailable c _ hun]
  exact cacheSet_unavailable _ _ _ _ hun

/-! ## Claim theorems -/

/-- C6: for a room history at capacity 50 (the default bound in
`storeMessage`), appending one more message leaves exactly 50 messages, the
oldest (head) evicted first, and the retained sequence is the old tail
followed by the new message, so append order is preserved. -/
theorem history_bound_fifo (c : CacheState) (m : RoomMessage)
    (h : List RoomMessage) (hav : c.available = true)
    (hcur : cacheGet c ("room:" ++ m.roomId ++ ":messages") = some (.roomMsgs h))
    (hlen : h.length = 50) :
    cacheGet (storeMessage c m) ("room:" ++ m.roomId ++ ":messages")
      = some (.roomMsgs (h.drop 1 ++ [m]))
    ∧ (h.drop 1 ++ [m]).length = 50 := by
  have hgt : (h ++ [m]).length > 50 := by simp [hlen]
  have hdrop : (h ++ [m]).drop 1 = h.drop 1 ++ [m] :=
    List.drop_append_of_le_length (by omega)
  constructor
  · unfold storeMessage
    dsimp only
    rw [hcur]
    simp only [if_pos hgt, hdrop]
    exact cacheGet_cacheSet_self c _ _ _ hav
  · simp [hlen]

/-- C6 witness data: a history at capacity, a fresh message, and a cache
holding the history under the room's key. -/
def c6Msg : RoomMessage :=
  ⟨"msg_1700000000000_abcdefghi", "alice", "general", "hello", "text", [],
   "2026-01-01T00:00:00.000Z", false, []⟩

def c6New : RoomMessage :=
  ⟨"msg_1700000000001_jklmnopqr", "bob", "general", "hi", "text", [],
   "2026-01-01T00:00:01.000Z", false, []⟩

def c6Hist : List RoomMessage := List.replicate 50 c6Msg

def c6Cache : CacheState :=
  ⟨true, [("room:general:messages", .roomMsgs c6Hist, 3600)]⟩

/-- Witness for C6 at a concrete cache holding 50 messages. -/
theorem history_bound_fifo_witness :
    cacheGet (storeMessage c6Cache c6New) ("room:" ++ c6New.roomId ++ ":messages")
      = some (.roomMsgs (c6Hist.drop 1 ++ [c6New]))
    ∧ (c6Hist.drop 1 ++ [c6New]).length = 50 :=
  history_bound_fifo c6Cache c6New c6Hist rfl (by rfl) (by simp [c6Hist])

/-- C7: a `sendRoomMessage` with an empty or whitespace-only body is rejected
with the `websocket.empty_message` error, and one whose sender's socket is not
in the target room is rejected with `websocket.not_in_room`; in either
rejection case the single emitted event is a `message_error` to the
originating socket only (never a room broadcast), the manager state — room
history included — is unchanged, and no message id is allocated. -/
theorem room_message_rejection (st : WSState) (socket : Socket)
    (roomId message messageType : String) (metadata : List (String × String))
    (nowMs : Nat) (randSuffix nowIso : String)
    (hrej : (jsTrim message).isEmpty = true
            ∨ socket.joinedRooms.contains roomId = false) :
    (handleSendMessage st socket roomId message messageType metadata
        nowMs randSuffix nowIso).state = st
    ∧ (handleSendMessage st socket roomId message messageType metadata
        nowMs randSuffix nowIso).allocatedIds = []
    ∧ ((jsTrim message).isEmpty = true →
        (handleSendMessage st socket roomId message messageType metadata
            nowMs randSuffix nowIso).emissions =
          [{ target := .sock socket.sid, event := "message_error"
             body := "websocket.empty_message" }])
    ∧ ((jsTrim message).isEmpty = false →
        socket.joinedRooms.contains roomId = false →
        (handleSendMessage st socket roomId message messageType metadata
            nowMs randSuffix nowIso).emissions =
          [{ target := .sock socket.sid, event := "message_error"
             body := "websocket.not_in_room" }]) := by
  by_cases hemp : (jsTrim message).isEmpty
  · refine ⟨?_, ?_, ?_, ?_⟩
    · simp [handleSendMessage, hemp]
    · simp [handleSendMessage, hemp]
    · intro _; simp [handleSendMessage, hemp, translate]
    · intro hf; rw [hemp] at hf; cases hf
  · have hnin : socket.joinedRooms.contains roomId = false := by
      rcases hrej with h | h
      · exact absurd h (by simpa using hemp)
      · exact h
    have hmem : roomId ∉ socket.joinedRooms := by simpa using hnin
    refine ⟨?_, ?_, ?_, ?_⟩
    · simp [handleSendMessage, hemp, hmem]
    · simp [handleSendMessage, hemp, hmem]
    · intro h; exact absurd h hemp
    · intro _ _; simp [handleSendMessage, hemp, hmem, translate]

/-- Witness for C7: a whitespace-only body on a concrete state is rejected
with `websocket.empty_message`, touches nothing, and allocates no id. -/
theorem room_message_rejection_witness :
    (handleSendMessage (initState true) ⟨1, "alice", "user", "en", ["general"]⟩
        "general" "   " "text" [] 1700000000000 "abcdefghi"
        "2026-01-01T00:00:00.000Z").state = initState true
    ∧ (handleSendMessage (initState true) ⟨1, "alice", "user", "en", ["general"]⟩
        "general" "   " "text" [] 1700000000000 "abcdefghi"
        "2026-01-01T00:00:00.000Z").allocatedIds = []
    ∧ (handleSendMessage (initState true) ⟨1, "alice", "user", "en", ["general"]⟩
        "general" "   " "text" [] 1700000000000 "abcdefghi"
        "2026-01-01T00:00:00.000Z").emissions =
      [{ target := .sock 1, event := "message_error"
         body := "websocket.empty_message" }] := by
  have h := room_message_rejection (initState true)
    ⟨1, "alice", "user", "en", ["general"]⟩ "general" "   " "text" []
    1700000000000 "abcdefghi" "2026-01-01T00:00:00.000Z" (Or.inl (by decide))
  exact ⟨h.1, h.2.1, h.2.2.1 (by decide)⟩

/-- C9: when the store is unavailable, an accepted room message is still
broadcast to the room and confirmed to the sender, the store append is
dropped without raising (the cache is unchanged), and history reads return an
empty sequence. -/
theorem store_unavailable_graceful (st : WSState) (socket : Socket)
    (roomId message messageType : String) (metadata : List (String × String))
    (nowMs : Nat) (randSuffix nowIso : String)
    (hun : st.cache.available = false)
    (hne : (jsTrim message).isEmpty = false)
    (hin : socket.joinedRooms.contains roomId = true) :
    (handleSendMessage st socket roomId message messageType metadata
        nowMs randSuffix nowIso).state.cache = st.cache
    ∧ (handleSendMessage st socket roomId message messageType metadata
        nowMs randSuffix nowIso).emissions =
      [{ target := .room roomId, event := "new_message", body := jsTrim message },
       { target := .sock socket.sid, event := "message_sent"
         body := generateMessageId nowMs randSuffix }]
    ∧ (sendMessageHistory st.cache socket roomId).msgs = []
    ∧ cacheGet st.cache ("room:" ++ roomId ++ ":messages") = none := by
  have hget : cacheGet st.cache ("room:" ++ roomId ++ ":messages") = none :=
    cacheGet_unavailable st.cache _ hun
  have hmem : roomId ∈ socket.joinedRooms := by simpa using hin
  refine ⟨?_, ?_, ?_, hget⟩
  · simp [handleSendMessage, hne, hmem, storeMessage_unavailable _ _ hun]
  · simp [handleSendMessage, hne, hmem]
  · simp [sendMessageHistory, hget, sliceLast]

/-- Witness for C9: over an unavailable store, a concrete valid room message
is still broadcast and nothing is persisted. -/
theorem store_unavailable_graceful_witness :
    (handleSendMessage (initState false) ⟨1, "alice", "user", "en", ["general"]⟩
        "general" "hello" "text" [] 1700000000000 "abcdefghi"
        "2026-01-01T00:00:00.000Z").state.cache = (initState false).cache
    ∧ (handleSendMessage (initState false) ⟨1, "alice", "user", "en", ["general"]⟩
        "general" "hello" "text" [] 1700000000000 "abcdefghi"
        "2026-01-01T00:00:00.000Z").emissions =
      [{ target := .room "general", event := "new_message", body := jsTrim "hello" },
       { target := .sock 1, event := "message_sent"
         body := generateMessageId 1700000000000 "abcdefghi" }]
    ∧ (sendMessageHistory (initState false).cache
        ⟨1, "alice", "user", "en", ["general"]⟩ "general").msgs = []
    ∧ cacheGet (initState false).cache "room:general:messages" = none := by
  have h := store_unavailable_graceful (initState false)
    ⟨1, "alice", "user", "en", ["general"]⟩ "general" "hello" "text" []
    1700000000000 "abcdefghi" "2026-01-01T00:00:00.000Z" rfl (by decide) (by decide)
  exact ⟨h.1, h.2.1, h.2.2.1, h.2.2.2⟩

/-- C10: a private message to an online target is delivered to the target's
socket in real time and nevertheless also appended to the persistent
`private_messages:{targetUserId}` store, with one-element FIFO eviction at
capacity 100 and a TTL of `86400 * 7` seconds (7 days). -/
theorem private_message_online_persisted (st : WSState) (socket : Socket)
    (targetUserId message messageType : String) (nowMs : Nat)
    (randSuffix nowIso : String) (tsid : Nat) (l : List PrivateMessage)
    (ttl0 : Nat)
    (hon : mapGet st.connectedUsers targetUserId = some tsid)
    (hav : st.cache.available = true)
    (hcur : cacheGetEntry st.cache ("private_messages:" ++ targetUserId)
      = some (.privMsgs l, ttl0))
    (hcap : l.length ≤ 100) :
    (handlePrivateMessage st socket targetUserId message messageType
        nowMs randSuffix nowIso).emissions =
      [{ target := .sock tsid, event := "private_message", body := jsTrim message },
       { target := .sock socket.sid, event := "private_message_sent"
         body := generateMessageId nowMs randSuffix }]
    ∧ cacheGetEntry (handlePrivateMessage st socket targetUserId message
        messageType nowMs randSuffix nowIso).state.cache
        ("private_messages:" ++ targetUserId)
      = some (.privMsgs (if l.length = 100
          then l.drop 1 ++ [⟨generateMessageId nowMs randSuffix, socket.userId,
            targetUserId, jsTrim message, messageType, nowIso, true⟩]
          else l ++ [⟨generateMessageId nowMs randSuffix, socket.userId,
            targetUserId, jsTrim message, messageType, nowIso, true⟩]), 86400 * 7)
    ∧ (if l.length = 100
        then l.drop 1 ++ [(⟨generateMessageId nowMs randSuffix, socket.userId,
          targetUserId, jsTrim message, messageType, nowIso, true⟩ : PrivateMessage)]
        else l ++ [⟨generateMessageId nowMs randSuffix, socket.userId,
          targetUserId, jsTrim message, messageType, nowIso, true⟩]).length ≤ 100 := by
  have hget : cacheGet st.cache ("private_messages:" ++ targetUserId)
      = some (.privMsgs l) := by
    simp [cacheGet, hcur]
  refine ⟨?_, ?_, ?_⟩
  · simp [handlePrivateMessage, hon]
  · simp only [handlePrivateMessage, hon]
    unfold storePrivateMessage
    dsimp only
    rw [hget]
    by_cases h100 : l.length = 100
    · have hgt : (l ++ [(⟨generateMessageId nowMs randSuffix, socket.userId,
          targetUserId, jsTrim message, messageType, nowIso, true⟩ :
            PrivateMessage)]).length > 100 := by simp [h100]
      have hdrop : ∀ m : PrivateMessage, (l ++ [m]).drop 1 = l.drop 1 ++ [m] :=
        fun m => List.drop_append_of_le_length (by omega)
      simp only [if_pos hgt, if_pos h100, hdrop]
      exact cacheGetEntry_cacheSet_self _ _ _ _ hav
    · have hlt : ¬ (l ++ [(⟨generateMessageId nowMs randSuffix, socket.userId,
          targetUserId, jsTrim message, messageType, nowIso, true⟩ :
            PrivateMessage)]).length > 100 := by
        simp only [List.length_append, List.length_singleton]
        omega
      simp only [if_neg hlt, if_neg h100]
      exact cacheGetEntry_cacheSet_self _ _ _ _ hav
  · by_cases h100 : l.length = 100
    · simp [h100]
    · simp only [if_neg h100, List.length_append, List.length_singleton]
      omega

/-- C10 witness data: dave online with socket 2, an existing stored private
conversation of two messages. -/
def c10Prev : PrivateMessage :=
  ⟨"msg_1699999999000_aaaaaaaaa", "carol", "dave", "earlier", "text",
   "2025-12-31T23:59:59.000Z", true⟩

def c10St : WSState :=
  { connectedUsers := [("carol", 1), ("dave", 2)]
    userSockets := [(1, "carol"), (2, "dave")]
    rooms := [], activeRooms := [], messageHistory := []
    connectionStats := ⟨2, 2, 0, 0⟩
    cache := ⟨true, [("private_messages:dave", .privMsgs [c10Prev], 604800)]⟩ }

/-- Witness for C10 at a concrete online target. -/
theorem private_message_online_persisted_witness :
    (handlePrivateMessage c10St ⟨1, "carol", "user", "en", []⟩ "dave" "hi there"
        "text" 1700000000000 "bcdefghij" "2026-01-01T00:00:00.000Z").emissions =
      [{ target := .sock 2, event := "private_message", body := jsTrim "hi there" },
       { target := .sock 1, event := "private_message_sent"
         body := generateMessageId 1700000000000 "bcdefghij" }]
    ∧ cacheGetEntry (handlePrivateMessage c10St ⟨1, "carol", "user", "en", []⟩
        "dave" "hi there" "text" 1700000000000 "bcdefghij"
        "2026-01-01T00:00:00.000Z").state.cache ("private_messages:" ++ "dave")
      = some (.privMsgs (if ([c10Prev].length = 100)
          then [c10Prev].drop 1 ++ [⟨generateMessageId 1700000000000 "bcdefghij",
            "carol", "dave", jsTrim "hi there", "text",
            "2026-01-01T00:00:00.000Z", true⟩]
          else [c10Prev] ++ [⟨generateMessageId 1700000000000 "bcdefghij",
            "carol", "dave", jsTrim "hi there", "text",
            "2026-01-01T00:00:00.000Z", true⟩]), 86400 * 7)
    ∧ (if ([c10Prev].length = 100)
        then [c10Prev].drop 1 ++ [(⟨generateMessageId 1700000000000 "bcdefghij",
          "carol", "dave", jsTrim "hi there", "text",
          "2026-01-01T00:00:00.000Z", true⟩ : PrivateMessage)]
        else [c10Prev] ++ [⟨generateMessageId 1700000000000 "bcdefghij",
          "carol", "dave", jsTrim "hi there", "text",
          "2026-01-01T00:00:00.000Z", true⟩]).length ≤ 100 :=
  private_message_online_persisted c10St ⟨1, "carol", "user", "en", []⟩ "dave"
    "hi there" "text" 1700000000000 "bcdefghij" "2026-01-01T00:00:00.000Z" 2
    [c10Prev] 604800 (by decide) rfl (by rfl) (by decide)

/-- Projection of `handleConnection` on the connected-users registry: a plain
`Map.set` keyed by the principal id. -/
theorem handleConnection_connectedUsers (st : WSState) (s : Socket) :
    (handleConnection st s).1.connectedUsers
      = mapSet st.connectedUsers s.userId s.sid := rfl

/-- Projection of `handleDisconnection` on the connected-users registry: a
plain `Map.delete` keyed by the disconnecting socket's principal id, with no
check that the stored handle is the disconnecting one. -/
theorem handleDisconnection_connectedUsers (st : WSState) (s : Socket) :
    (handleDisconnection st s).1.connectedUsers
      = mapDelete st.connectedUsers s.userId := rfl

theorem connectSeq_resolve (p : String) :
    ∀ (socks : List Socket) (st : WSState) (hne : socks ≠ []),
      (∀ s ∈ socks, s.userId = p) →
      mapGet (connectSeq st socks).connectedUsers p
        = some ((socks.getLast hne).sid) := by
  intro socks
  induction socks with
  | nil => intro st hne _; exact absurd rfl hne
  | cons s rest ih =>
      intro st hne hall
      cases rest with
      | nil =>
          simp only [connectSeq, List.foldl_cons, List.foldl_nil,
            List.getLast_singleton]
          rw [handleConnection_connectedUsers, hall s (List.mem_cons_self s [])]
          exact mapGet_mapSet_self _ _ _
      | cons r rest' =>
          have hne' : r :: rest' ≠ [] := by simp
          rw [show connectSeq st (s :: r :: rest')
              = connectSeq ((handleConnection st s).1) (r :: rest') from rfl,
            List.getLast_cons hne']
          exact ih _ hne' (fun x hx => hall x (List.mem_cons_of_mem s hx))

theorem connectSeq_nodup (socks : List Socket) :
    ∀ st : WSState, (mapKeys st.connectedUsers).Nodup →
      (mapKeys (connectSeq st socks).connectedUsers).Nodup := by
  induction socks with
  | nil => intro st h; exact h
  | cons s rest ih =>
      intro st h
      refine ih _ ?_
      rw [handleConnection_connectedUsers]
      exact nodup_mapKeys_mapSet _ _ _ h

/- C1 concrete run: alice opens socket 1, then socket 2. -/
def c1Old : Socket := ⟨1, "alice", "user", "en", []⟩
def c1New : Socket := ⟨2, "alice", "user", "en", []⟩
def c1Run1 := handleConnection (initState true) c1Old
def c1Run2 := handleConnection c1Run1.1 c1New

/-- C1 counterexample: after alice opens socket 1 and then socket 2, the
registry resolves alice to socket 2; but when the superseded socket 1 later
disconnects, `handleDisconnection` deletes the entry keyed by "alice", so the
newest handle's mapping is gone — `resolve` returns `none`, not socket 2,
refuting the claim that a later disconnect of a superseded older handle
leaves the newest handle's registry mapping intact. -/
theorem resolve_after_stale_disconnect_cex :
    mapGet c1Run2.1.connectedUsers "alice" = some 2
    ∧ mapGet (handleDisconnection c1Run2.1 c1Run1.2.1).1.connectedUsers "alice"
        = none
    ∧ ¬ (mapGet (handleDisconnection c1Run2.1 c1Run1.2.1).1.connectedUsers
          "alice" = some 2) :=
  ⟨rfl, rfl, fun h => Option.noConfusion h⟩

/-- C1 (amended): after any nonempty sequence of `connectionOpened` events
from principal `p`, `resolve p` returns the most recently opened handle and
the registry never holds two entries for one principal id (`Map.set` keeps
keys unique); however no close of the superseded connection is ever issued —
the connection handler's outbound events are exactly the welcome, the
active-room list and the presence broadcast — and a later disconnect of any
socket carrying `p` (a superseded older handle included) deletes the registry
entry outright, so `resolve p` then returns `none` rather than the newest
handle. -/
theorem registry_last_writer_amended (st : WSState) (p : String)
    (socks : List Socket) (s' : Socket) (hne : socks ≠ [])
    (hall : ∀ s ∈ socks, s.userId = p)
    (hnodup : (mapKeys st.connectedUsers).Nodup)
    (hs' : s'.userId = p) :
    mapGet (connectSeq st socks).connectedUsers p
      = some ((socks.getLast hne).sid)
    ∧ (mapKeys (connectSeq st socks).connectedUsers).Nodup
    ∧ ((handleConnection st s').2.2.map Emission.event)
        = ["connected", "active_rooms", "user_status_changed"]
    ∧ mapGet (handleDisconnection (connectSeq st socks) s').1.connectedUsers p
        = none := by
  refine ⟨connectSeq_resolve p socks st hne hall,
    connectSeq_nodup socks st hnodup, rfl, ?_⟩
  rw [handleDisconnection_connectedUsers, hs']
  exact mapGet_mapDelete_self _ _

/-- Witness for C1 (amended) on the two-socket run for alice. -/
theorem registry_last_writer_amended_witness :
    mapGet (connectSeq (initState true) [⟨1, "alice", "user", "en", []⟩,
        ⟨2, "alice", "user", "en", []⟩]).connectedUsers "alice" = some 2
    ∧ (mapKeys (connectSeq (initState true) [⟨1, "alice", "user", "en", []⟩,
        ⟨2, "alice", "user", "en", []⟩]).connectedUsers).Nodup
    ∧ ((handleConnection (initState true)
        (⟨1, "alice", "user", "en", []⟩ : Socket)).2.2.map Emission.event)
        = ["connected", "active_rooms", "user_status_changed"]
    ∧ mapGet (handleDisconnection (connectSeq (initState true)
        [⟨1, "alice", "user", "en", []⟩, ⟨2, "alice", "user", "en", []⟩])
        ⟨1, "alice", "user", "en", []⟩).1.connectedUsers "alice" = none :=
  registry_last_writer_amended (initState true) "alice"
    [⟨1, "alice", "user", "en", []⟩, ⟨2, "alice", "user", "en", []⟩]
    ⟨1, "alice", "user", "en", []⟩ (by decide) (by decide) (by decide) rfl

/-- Projection of `handleDisconnection` on the room tracker: only the cleanup
filter is applied; no membership of the disconnecting user is removed. -/
theorem handleDisconnection_rooms (st : WSState) (s : Socket) :
    (handleDisconnection st s).1.rooms
      = st.rooms.filter (fun rm => !rm.2.isEmpty) := rfl

/- C4 concrete run: alice connects and joins "general". -/
def c4Sock : Socket := ⟨1, "alice", "user", "en", []⟩
def c4Conn := handleConnection (initState true) c4Sock
def c4Join := handleJoinRoom c4Conn.1 c4Conn.2.1 "general" "2026-01-01T00:00:00.000Z"

/-- C4 counterexample: alice connects, joins "general" and disconnects; the
claim requires her membership to be removed from every room she had joined,
but after `handleDisconnection` the tracker still maps "general" to
`["alice"]`, even though she is no longer registered as connected. -/
theorem disconnect_room_membership_cex :
    mapGet (handleDisconnection c4Join.1 c4Join.2.1).1.rooms "general"
      = some ["alice"]
    ∧ mapGet (handleDisconnection c4Join.1 c4Join.2.1).1.connectedUsers "alice"
      = none :=
  ⟨rfl, rfl⟩

/-- C4 (amended): connection-closed deregisters the principal and broadcasts
presence-offline (`user_offline`) to each room the socket was in, but removes
no room membership: the tracker afterwards holds exactly the member sets that
were non-empty before (the disconnected principal still among them), and the
cleanup pass guarantees the emptiness half of the claim — no room with an
empty member set survives it. -/
theorem disconnect_cleanup_amended (st : WSState) (socket : Socket) :
    (handleDisconnection st socket).1.rooms
      = st.rooms.filter (fun rm => !rm.2.isEmpty)
    ∧ ((handleDisconnection st socket).1.rooms.all (fun rm => !rm.2.isEmpty))
        = true
    ∧ (handleDisconnection st socket).2
      = { target := .room ("user:" ++ socket.userId)
          event := "user_status_changed", body := socket.userId }
        :: socket.joinedRooms.map (fun roomId =>
            { target := Target.roomExcept roomId socket.sid
              event := "user_offline", body := socket.userId }) := by
  refine ⟨rfl, ?_, rfl⟩
  rw [handleDisconnection_rooms]
  simp only [List.all_eq_true]
  intro rm hrm
  exact (List.mem_filter.mp hrm).2

/- C8 concrete run: alice connects and joins "general", its sole member. -/
def c8Sock : Socket := ⟨1, "alice", "user", "en", []⟩
def c8Conn := handleConnection (initState true) c8Sock
def c8Join := handleJoinRoom c8Conn.1 c8Conn.2.1 "general" "2026-01-01T00:00:00.000Z"

/-- C8 counterexample: "general" has alice as its only member; her leave makes
the member set empty and `handleLeaveRoom` deletes the room record
immediately, inside the handler — `membersOf "general"` is gone right after
the leave, before any periodic cleanup pass could run, refuting the claim
that the room is only marked and survives until the next sweep. -/
theorem leave_empty_room_sync_delete_cex :
    mapGet c8Join.1.rooms "general" = some ["alice"]
    ∧ mapGet (handleLeaveRoom c8Join.1 c8Join.2.1 "general"
        "2026-01-01T00:00:01.000Z").1.rooms "general" = none :=
  ⟨rfl, rfl⟩

/-- C8 (amended): `leave` removes the membership, and when the resulting
member set is empty the room record is deleted synchronously by the leave
handler itself — from both `rooms` and `activeRooms` — with no
mark-for-deletion and no grace period; when members remain, the room stays
with the reduced member set. -/
theorem leave_empty_room_amended (st : WSState) (socket : Socket)
    (roomId nowIso : String) (members : List String)
    (hm : mapGet st.rooms roomId = some members) :
    ((members.erase socket.userId).isEmpty = true →
      mapGet (handleLeaveRoom st socket roomId nowIso).1.rooms roomId = none
      ∧ (handleLeaveRoom st socket roomId nowIso).1.activeRooms
          = st.activeRooms.erase roomId)
    ∧ ((members.erase socket.userId).isEmpty = false →
      mapGet (handleLeaveRoom st socket roomId nowIso).1.rooms roomId
        = some (members.erase socket.userId)) := by
  constructor
  · intro hemp
    constructor
    · unfold handleLeaveRoom
      dsimp only
      rw [hm]
      simp only [hemp, if_true]
      exact mapGet_mapDelete_self _ _
    · unfold handleLeaveRoom
      dsimp only
      rw [hm]
      simp only [hemp, if_true]
  · intro hne
    unfold handleLeaveRoom
    dsimp only
    rw [hm]
    simp only [hne, Bool.false_eq_true, if_false]
    exact mapGet_mapSet_self _ _ _

/-- Witness for C8 (amended) on a one-member room. -/
theorem leave_empty_room_amended_witness :
    mapGet (handleLeaveRoom
      { connectedUsers := [("alice", 1)], userSockets := [(1, "alice")]
        rooms := [("general", ["alice"])], activeRooms := []
        messageHistory := [], connectionStats := ⟨1, 1, 0, 0⟩
        cache := ⟨true, []⟩ }
      ⟨1, "alice", "user", "en", ["general"]⟩ "general"
      "2026-01-01T00:00:01.000Z").1.rooms "general" = none :=
  ((leave_empty_room_amended
    { connectedUsers := [("alice", 1)], userSockets := [(1, "alice")]
      rooms := [("general", ["alice"])], activeRooms := []
      messageHistory := [], connectionStats := ⟨1, 1, 0, 0⟩
      cache := ⟨true, []⟩ }
    ⟨1, "alice", "user", "en", ["general"]⟩ "general"
    "2026-01-01T00:00:01.000Z" ["alice"] rfl).1 (by decide)).1

/-- Projection of `handleConnection` on the store: the only write is the
presence flag `user:{userId}:online`. -/
theorem handleConnection_cache (st : WSState) (s : Socket) :
    (handleConnection st s).1.cache
      = (cacheSet st.cache ("user:" ++ s.userId ++ ":online")
          (.flag true) 300).1 := rfl

/- C2 concrete run: carol is connected, dave is offline; carol sends dave a
private message; dave then connects. -/
def c2Conn := handleConnection (initState true) ⟨1, "carol", "user", "en", []⟩
def c2Send := handlePrivateMessage c2Conn.1 c2Conn.2.1 "dave" "hi" "text"
  1700000000000 "abcdefghi" "2026-01-01T00:00:00.000Z"
def c2Reconn := handleConnection c2Send.state ⟨2, "dave", "user", "en", []⟩

/-- C2 counterexample: carol's private message to the offline dave is
rejected with an error and stored nowhere, and dave's subsequent
connection-opened handling emits no `notification` or `private_message`
event and finds both queues empty — dave receives the message zero times via
replay, not exactly once as the claim requires. -/
theorem offline_replay_roundtrip_cex :
    c2Send.emissions = [{ target := .sock 1, event := "private_message_error"
                          body := "websocket.user_offline" }]
    ∧ c2Send.state = c2Conn.1
    ∧ (c2Reconn.2.2.filter (fun e =>
        e.event == "notification" || e.event == "private_message")) = []
    ∧ cacheGet c2Reconn.1.cache "offline_notifications:dave" = none
    ∧ cacheGet c2Reconn.1.cache "private_messages:dave" = none :=
  ⟨rfl, rfl, rfl, rfl, rfl⟩

/-- C2 (amended): a private message to an offline principal is rejected with
`private_message_error` to the sender and nothing is queued; and
connection-opened performs no replay at all — among its outbound events there
is no `notification` and no `private_message`, and every store key other than
the presence flag `user:{id}:online` (in particular every
`offline_notifications:*` and `private_messages:*` queue) is left exactly as
it was.  Hence a reconnecting principal receives such a message zero times,
on the first and on every subsequent reconnect. -/
theorem offline_private_message_amended (st : WSState) (socket : Socket)
    (targetUserId message messageType : String) (nowMs : Nat)
    (randSuffix nowIso : String) (st2 : WSState) (s2 : Socket) (k : String)
    (hoff : mapGet st.connectedUsers targetUserId = none)
    (hk : k ≠ "user:" ++ s2.userId ++ ":online") :
    (handlePrivateMessage st socket targetUserId message messageType nowMs
        randSuffix nowIso).state = st
    ∧ (handlePrivateMessage st socket targetUserId message messageType nowMs
        randSuffix nowIso).emissions =
      [{ target := .sock socket.sid, event := "private_message_error"
         body := "websocket.user_offline" }]
    ∧ ((handleConnection st2 s2).2.2.filter (fun e =>
        e.event == "notification" || e.event == "private_message")) = []
    ∧ cacheGet (handleConnection st2 s2).1.cache k = cacheGet st2.cache k := by
  refine ⟨?_, ?_, rfl, ?_⟩
  · simp [handlePrivateMessage, hoff]
  · simp [handlePrivateMessage, hoff, translate]
  · rw [handleConnection_cache]
    exact cacheGet_cacheSet_ne _ _ _ _ _ hk

/-- Witness for C2 (amended) at a concrete offline target and reconnect. -/
theorem offline_private_message_amended_witness :
    (handlePrivateMessage (initState true) ⟨1, "carol", "user", "en", []⟩
        "dave" "hi" "text" 1700000000000 "abcdefghi"
        "2026-01-01T00:00:00.000Z").state = initState true
    ∧ (handlePrivateMessage (initState true) ⟨1, "carol", "user", "en", []⟩
        "dave" "hi" "text" 1700000000000 "abcdefghi"
        "2026-01-01T00:00:00.000Z").emissions =
      [{ target := .sock 1, event := "private_message_error"
         body := "websocket.user_offline" }]
    ∧ ((handleConnection (initState true)
        (⟨2, "dave", "user", "en", []⟩ : Socket)).2.2.filter (fun e =>
        e.event == "notification" || e.event == "private_message")) = []
    ∧ cacheGet (handleConnection (initState true)
        (⟨2, "dave", "user", "en", []⟩ : Socket)).1.cache
        "offline_notifications:dave"
      = cacheGet (initState true).cache "offline_notifications:dave" :=
  offline_private_message_amended (initState true)
    ⟨1, "carol", "user", "en", []⟩ "dave" "hi" "text" 1700000000000
    "abcdefghi" "2026-01-01T00:00:00.000Z" (initState true)
    ⟨2, "dave", "user", "en", []⟩ "offline_notifications:dave" rfl (by decide)

/- C3 concrete run: carol connected, dave offline, carol sends dave a private
message. -/
def c3Conn := handleConnection (initState true) ⟨1, "carol", "user", "en", []⟩
def c3Send := handlePrivateMessage c3Conn.1 c3Conn.2.1 "dave" "hello dave"
  "text" 1700000000500 "cdefghijk" "2026-01-01T00:00:00.500Z"

/-- C3 evaluation at the failing input: a private message whose target has no
live connection is answered with a `private_message_error` to the sender (an
error is surfaced), nothing is appended to the target's offline or private
message store, and no message id is allocated — the code takes an error
branch where the claim (and the source's own "store … for offline delivery"
comments) require a silent append to the offline queue. -/
theorem private_message_offline_eval :
    c3Send.emissions = [{ target := .sock 1, event := "private_message_error"
                          body := "websocket.user_offline" }]
    ∧ c3Send.state = c3Conn.1
    ∧ cacheGet c3Send.state.cache "private_messages:dave" = none
    ∧ cacheGet c3Send.state.cache "offline_notifications:dave" = none
    ∧ c3Send.allocatedIds = [] :=
  ⟨rfl, rfl, rfl, rfl, rfl⟩

/-! ### Decimal rendering, for reasoning about `generateMessageId` -/

/-- Big-endian decimal digit characters of a natural number; structural
companion of core's fuel-based `Nat.toDigitsCore`. -/
def natDigits (n : Nat) : List Char :=
  if _h : n < 10 then [Nat.digitChar n]
  else natDigits (n / 10) ++ [Nat.digitChar (n % 10)]
decreasing_by exact Nat.div_lt_self (by omega) (by omega)

theorem toDigitsCore_eq_natDigits :
    ∀ (fuel n : Nat) (ds : List Char), n < fuel →
      Nat.toDigitsCore 10 fuel n ds = natDigits n ++ ds := by
  intro fuel
  induction fuel with
  | zero => intro n ds h; omega
  | succ f ih =>
      intro n ds h
      by_cases h10 : n / 10 = 0
      · have hn : n < 10 := by
          by_contra hc
          have : 10 / 10 ≤ n / 10 := Nat.div_le_div_right (by omega)
          simp [h10] at this
        rw [Nat.toDigitsCore]
        simp only [h10, if_pos rfl]
        rw [natDigits]
        simp [hn, Nat.mod_eq_of_lt hn]
      · have hn : ¬ n < 10 := fun hc => h10 (Nat.div_eq_of_lt hc)
        have hlt : n / 10 < f := by
          have h1 : n / 10 < n := Nat.div_lt_self (by omega) (by omega)
          omega
        rw [Nat.toDigitsCore]
        simp only [h10, if_neg h10]
        rw [ih (n / 10) _ hlt]
        conv_rhs => rw [natDigits]
        simp [hn, List.append_assoc]

/-- The number denoted by a big-endian list of decimal digit characters. -/
def digitsVal (l : List Char) : Nat :=
  l.foldl (fun acc c => acc * 10 + (c.toNat - 48)) 0

theorem digitChar_toNat (d : Nat) (h : d < 10) : (Nat.digitChar d).toNat = 48 + d := by
  interval_cases d <;> rfl

theorem digitsVal_natDigits (n : Nat) : digitsVal (natDigits n) = n := by
  induction n using Nat.strong_induction_on with
  | _ n ih =>
    by_cases h : n < 10
    · rw [natDigits]
      simp [h, digitsVal, digitChar_toNat n h]
    · rw [natDigits]
      simp only [h, dite_false]
      rw [digitsVal, List.foldl_append]
      have hdiv : n / 10 < n := Nat.div_lt_self (by omega) (by omega)
      have hmod : n % 10 < 10 := Nat.mod_lt n (by omega)
      rw [show List.foldl (fun acc c => acc * 10 + (c.toNat - 48)) 0
          (natDigits (n / 10)) = digitsVal (natDigits (n / 10)) from rfl,
        ih (n / 10) hdiv]
      simp only [List.foldl_cons, List.foldl_nil, digitChar_toNat _ hmod]
      omega

theorem stringDataInj (a b : String) (h : a.data = b.data) : a = b := by
  cases a
  cases b
  exact congrArg String.mk (by simpa using h)

/-- Embeds `Nat.repr` (the `${...}` rendering of `Date.now()`) is injective. -/
theorem natRepr_injective (m n : Nat) (h : Nat.repr m = Nat.repr n) : m = n := by
  have hm : Nat.repr m = (natDigits m).asString := by
    rw [Nat.repr, Nat.toDigits,
      toDigitsCore_eq_natDigits (m + 1) m [] (Nat.lt_succ_self m)]
    simp
  have hn : Nat.repr n = (natDigits n).asString := by
    rw [Nat.repr, Nat.toDigits,
      toDigitsCore_eq_natDigits (n + 1) n [] (Nat.lt_succ_self n)]
    simp
  rw [hm, hn] at h
  have hdata : natDigits m = natDigits n := congrArg String.data h
  calc m = digitsVal (natDigits m) := (digitsVal_natDigits m).symm
    _ = digitsVal (natDigits n) := by rw [hdata]
    _ = n := digitsVal_natDigits n

/-- C5 counterexample: message ids are `msg_<epochMillis>_<randomSuffix>`
strings.  Two allocations in the same millisecond (`Date.now()` has
millisecond resolution, so consecutive calls can observe the same value) can
produce a second id that is smaller, not greater, than the first; and even
with strictly increasing milliseconds the id ordering breaks when the digit
count grows.  Either instance refutes strict monotonicity of ids in
allocation order. -/
theorem message_id_monotone_cex :
    generateMessageId 1700000000000 "zzzzzzzzz" = "msg_1700000000000_zzzzzzzzz"
    ∧ generateMessageId 1700000000000 "aaaaaaaaa" = "msg_1700000000000_aaaaaaaaa"
    ∧ ¬ (generateMessageId 1700000000000 "zzzzzzzzz"
          < generateMessageId 1700000000000 "aaaaaaaaa")
    ∧ ¬ (generateMessageId 999999999999 "aaaaaaaaa"
          < generateMessageId 1000000000000 "aaaaaaaaa") := by
  refine ⟨rfl, rfl, ?_, ?_⟩
  · rw [String.lt_iff_toList_lt]; decide
  · rw [String.lt_iff_toList_lt]; decide

/-- C5 (amended): ids allocated by `generateMessageId` are not monotonically
increasing in allocation order and cannot serve as the ordering key (see the
counterexample); what does hold is the uniqueness half in conditional form —
for equal-length random suffixes (the generator draws 9 base-36 characters),
two calls return the same id only when both the millisecond timestamp and
the suffix coincide, i.e. the id determines the `(Date.now(), suffix)`
pair. -/
theorem message_id_uniqueness_amended (t1 t2 : Nat) (s1 s2 : String)
    (hlen : s1.length = s2.length)
    (heq : generateMessageId t1 s1 = generateMessageId t2 s2) :
    t1 = t2 ∧ s1 = s2 := by
  have hdata : ("msg_" ++ toString t1).data ++ ('_' :: s1.data)
      = ("msg_" ++ toString t2).data ++ ('_' :: s2.data) := by
    have h := congrArg String.data heq
    simpa [generateMessageId, String.data_append, List.append_assoc] using h
  have hlen' : ('_' :: s1.data).length = ('_' :: s2.data).length := by
    simp only [List.length_cons]
    exact congrArg Nat.succ hlen
  obtain ⟨hpre, hsuf⟩ := List.append_inj' hdata hlen'
  have hs : s1 = s2 := by
    have hd : s1.data = s2.data := by injection hsuf
    exact stringDataInj s1 s2 hd
  have ht : t1 = t2 := by
    have hrepr : (toString t1).data = (toString t2).data := by
      rw [String.data_append, String.data_append] at hpre
      exact List.append_cancel_left hpre
    exact natRepr_injective t1 t2 (stringDataInj _ _ hrepr)
  exact ⟨ht, hs⟩

/-- Witness for C5 (amended) at one concrete timestamp/suffix pair. -/
theorem message_id_uniqueness_amended_witness :
    (1700000000000 : Nat) = 1700000000000 ∧ "abcdefghi" = "abcdefghi" :=
  message_id_uniqueness_amended 1700000000000 1700000000000
    "abcdefghi" "abcdefghi" rfl rfl

end NodeWS
